import Mathlib

/-!
# Shallow embedding of the BTTF weather-logistics ETL pipeline

This file embeds the two core source files of the pipeline:

* `src/scripts/ingestion/weather_fetch.py` — retry-bounded weather retrieval
  (`fetch_weather_for_city`) and the city-catalog read (`fetch_cities_from_db`);
* `src/scripts/processing/build_fact_shipments_weather.py` — the
  normalize-and-join step (`preprocess_and_join`) that produces the fact table.

Modelling conventions:

* Float-typed columns (latitude, longitude, fuel, weather variables) are
  represented as fixed-point integers in hundredths (`52.52 ↦ 5252`,
  `21.3 ↦ 2130`).  The pipeline only copies these values and compares them
  for equality during merges, so any injective encoding of the decimal
  literals is faithful; fixed-point integers keep every proof kernel-decidable.
* Datetimes are minutes since an arbitrary epoch (`Nat`); pandas
  `Series.dt.floor("h")` becomes integer truncation to a multiple of 60, and
  `pd.to_datetime` on an already-datetime column is the identity.
* Pandas dataframes are `List`s of row structures; `pd.merge` preserves the
  order of the left frame's rows, with right-side matches in right-frame
  order, which is the `flatMap`/`filter` order used here.
* In-place column assignment on an argument dataframe mutates the caller's
  object, so `preprocess_and_join` is embedded with explicit state passing:
  it returns the fact table together with the post-call contents of its three
  argument tables.
* Python exceptions are `Option`: `none` is a raised exception.
-/

namespace BTTFWeather

/-- Whitespace test used by Python `str.strip()` (ASCII range, which covers
every value in this data set). -/
def pyIsSpace (c : Char) : Bool :=
  c == ' ' || c == '\t' || c == '\n' || c == '\r' || c == '\x0b' || c == '\x0c'

/-- Python `str.strip()`: drop leading and trailing whitespace. -/
def pyStrip (s : String) : String :=
  ⟨((s.data.dropWhile pyIsSpace).reverse.dropWhile pyIsSpace).reverse⟩

/-- Python `str.lower()` (ASCII case mapping, which covers this data set). -/
def pyLower (s : String) : String :=
  ⟨s.data.map Char.toLower⟩

/-- The `.str.strip().str.lower()` normalization applied to the city-name
columns at `build_fact_shipments_weather.py` lines 97, 98 and 110. -/
def stripLower (s : String) : String := pyLower (pyStrip s)

/-- `Series.dt.floor("h")` on minute-resolution datetimes: truncate to the
start of the containing hour. -/
def floorHour (t : Nat) : Nat := t / 60 * 60

/-! ## Ingestion stage: `src/scripts/ingestion/weather_fetch.py` -/

/-- A row of `shipments.cities` as visible to `fetch_cities_from_db`'s query
(`SELECT name, latitude, longitude FROM shipments.cities ...`); `none` is a
SQL NULL coordinate. -/
structure CatalogCityRow where
  name : String
  latitude : Option Int
  longitude : Option Int
  deriving DecidableEq, Repr

/-- A `city_info` dict as produced by `fetch_cities_from_db` and consumed by
`fetch_weather_for_city`. -/
structure CityInfo where
  city : String
  latitude : Int
  longitude : Int
  deriving DecidableEq, Repr

/-- `fetch_cities_from_db` (weather_fetch.py lines 107–137) applied to the
catalog table contents: the query keeps a row exactly when
`latitude IS NOT NULL AND longitude IS NOT NULL`, and each kept row becomes a
`{"city": name, "latitude": .., "longitude": ..}` dict.  (The
connection-failure path, which returns an empty list, takes no row data and is
not part of this per-row contract.) -/
def fetch_cities_from_db (rows : List CatalogCityRow) : List CityInfo :=
  rows.filterMap (fun r =>
    match r.latitude, r.longitude with
    | some la, some lo => some { city := r.name, latitude := la, longitude := lo }
    | _, _ => none)

/-- A value inside an hourly variable array of the decoded API response:
a number (fixed-point) or JSON null. -/
abbrev JVal := Option Int

/-- The `hourly` object of a decoded Open-Meteo response: its `time` array
(`hourly_data.get("time", [])`; an absent `time` key is the empty list) and
the variable arrays present upstream. -/
structure HourlyObj where
  time : List String
  vars : List (String × List JVal)
  deriving DecidableEq, Repr

/-- Outcome of one `requests.get` invocation, as observable inside the `try`
block of `fetch_weather_for_city`. -/
inductive HttpOutcome where
  /-- `requests.get` raised (connection error / timeout). -/
  | netError
  /-- `response.raise_for_status()` raised. -/
  | httpError
  /-- `response.json()` raised. -/
  | decodeError
  /-- Decoded JSON body; `none` models a body with no `hourly` member, so that
  `data.get("hourly", {})` yields the empty object. -/
  | ok (hourly : Option HourlyObj)
  deriving DecidableEq, Repr

/-- The module-level `WEATHER_PARAMS` list (weather_fetch.py lines 37–42). -/
def WEATHER_PARAMS : List String :=
  ["temperature_2m", "windspeed_10m", "precipitation", "weathercode"]

/-- `hourly_data.get(param, [None])`: the variable's array when the upstream
provides it, otherwise the one-element default list `[None]`. -/
def hourlyGet (h : HourlyObj) (param : String) : List JVal :=
  match h.vars.find? (fun pv => pv.1 == param) with
  | some pv => pv.2
  | none => [none]

/-- One record of the list comprehension at weather_fetch.py lines 85–94. -/
structure WeatherFetchRecord where
  city : String
  latitude : Int
  longitude : Int
  timestamp : String
  /-- `{param: hourly_data.get(param, [None])[i] for param in WEATHER_PARAMS}`,
  in `WEATHER_PARAMS` order. -/
  vars : List (String × JVal)
  deriving DecidableEq, Repr

/-- The record built for index `i`, timestamp `ts` of the time series.
`(hourlyGet h p).get? i` is `hourly_data.get(param, [None])[i]`; `none` for
the whole record models the `IndexError` raised when `i` is out of range of a
variable's array (in particular of the default `[None]`). -/
def buildRecord (c : CityInfo) (h : HourlyObj) (i : Nat) (ts : String) :
    Option WeatherFetchRecord :=
  (WEATHER_PARAMS.mapM (fun p => ((hourlyGet h p).get? i).map (fun v => (p, v)))).map
    (fun pvs => { city := c.city, latitude := c.latitude, longitude := c.longitude,
                  timestamp := ts, vars := pvs })

/-- The full list comprehension over `enumerate(time_series)`; `none` models
an exception escaping record construction, aborting the attempt. -/
def buildRecords (c : CityInfo) (h : HourlyObj) : Option (List WeatherFetchRecord) :=
  h.time.enum.mapM (fun it => buildRecord c h it.1 it.2)

/-- One iteration of the retry loop body (weather_fetch.py lines 75–94):
`some records` when the attempt returns, `none` when any exception is raised
(network, HTTP status, decode, empty time series, or record construction). -/
def attemptFetch (c : CityInfo) (out : HttpOutcome) :
    Option (List WeatherFetchRecord) :=
  match out with
  | .netError => none
  | .httpError => none
  | .decodeError => none
  | .ok hourly =>
    let hourly_data := hourly.getD ⟨[], []⟩
    let time_series := hourly_data.time
    if time_series.isEmpty then none
    else buildRecords c hourly_data

/-- The `for attempt in range(retries)` loop of `fetch_weather_for_city`.
`endpoint n` is the outcome of the `(n+1)`-st `requests.get` invocation; the
second component of the result counts invocations performed.  A successful
attempt returns its records immediately; after the last failure the function
falls through to `return []`. -/
def fetchLoop (c : CityInfo) (endpoint : Nat → HttpOutcome) :
    Nat → Nat → List WeatherFetchRecord × Nat
  | 0, calls => ([], calls)
  | n + 1, calls =>
    match attemptFetch c (endpoint calls) with
    | some records => (records, calls + 1)
    | none => fetchLoop c endpoint n (calls + 1)

/-- `fetch_weather_for_city` (weather_fetch.py lines 59–101).  The function
catches every exception internally and always returns a list, so its embedding
is total: no error outcome exists in the return type. -/
def fetch_weather_for_city (c : CityInfo) (endpoint : Nat → HttpOutcome)
    (retries : Nat) : List WeatherFetchRecord × Nat :=
  fetchLoop c endpoint retries 0

/-! ## Processing stage: `src/scripts/processing/build_fact_shipments_weather.py` -/

/-- A row of the `shipments.shipments` table, including the two columns that
`preprocess_and_join` assigns in place at lines 109–110 (`none` = the column
is absent, as it is before the call). -/
structure ShipmentRow where
  id : Int
  start_location : String
  shipment_start_timestamp : Nat
  consumed_fuel : Int
  hourly_timestamp : Option Nat
  city : Option String
  deriving DecidableEq, Repr

/-- A row of the `shipments.cities` table as loaded for the join. -/
structure CityRow where
  id : Int
  name : String
  latitude : Int
  longitude : Int
  deriving DecidableEq, Repr

/-- A row of the weather CSV hand-off artifact. -/
structure WeatherRow where
  city : String
  latitude : Int
  longitude : Int
  timestamp : Nat
  temperature_2m : Option Int
  windspeed_10m : Option Int
  precipitation : Option Int
  weathercode : Option Int
  deriving DecidableEq, Repr

/-- A row of `merged_weather`: the weather columns, the city columns brought
in by the left merge at lines 100–106 (`none` when no catalog city matched),
and the `hourly_timestamp` column added at line 113. -/
structure MergedWeatherRow where
  city : String
  latitude : Int
  longitude : Int
  timestamp : Nat
  temperature_2m : Option Int
  windspeed_10m : Option Int
  precipitation : Option Int
  weathercode : Option Int
  /-- The catalog `id` column (later `id_y`). -/
  city_id : Option Int
  /-- The catalog `name` column. -/
  name : Option String
  hourly_timestamp : Nat
  deriving DecidableEq, Repr

/-- A row of `result_df` after the projection and rename at lines 126–140. -/
structure FactRecord where
  shipment_id : Int
  city_id : Option Int
  timestamp : Nat
  fuel_consumed_liters : Int
  temperature_2m : Option Int
  windspeed_10m : Option Int
  precipitation : Option Int
  weathercode : Option Int
  deriving DecidableEq, Repr

/-- Line 97: `cities_df["name"] = cities_df["name"].str.strip().str.lower()`. -/
def normalizeCityRow (c : CityRow) : CityRow :=
  { c with name := stripLower c.name }

/-- Line 98: `weather_df["city"] = weather_df["city"].str.strip().str.lower()`. -/
def normalizeWeatherRow (w : WeatherRow) : WeatherRow :=
  { w with city := stripLower w.city }

/-- The key comparison of the left merge at lines 100–106:
`left_on=["city", "latitude", "longitude"]`, `right_on=["name", "latitude",
"longitude"]`. -/
def cityMatchesWeather (w : WeatherRow) (c : CityRow) : Bool :=
  c.name == w.city && c.latitude == w.latitude && c.longitude == w.longitude

/-- Assembly of one `merged_weather` row from a weather row and the matched
city columns (or NaN fills), with `hourly_timestamp` as set rowwise by
lines 112–113 (`pd.to_datetime` on the already-datetime column is the
identity). -/
def mergedRow (w : WeatherRow) (cid : Option Int) (cname : Option String) :
    MergedWeatherRow :=
  { city := w.city, latitude := w.latitude, longitude := w.longitude,
    timestamp := w.timestamp, temperature_2m := w.temperature_2m,
    windspeed_10m := w.windspeed_10m, precipitation := w.precipitation,
    weathercode := w.weathercode, city_id := cid, name := cname,
    hourly_timestamp := floorHour w.timestamp }

/-- The left merge `pd.merge(weather_df, cities_df, how="left", ...)` at
lines 100–106 (with the rowwise column additions of lines 112–113): every
weather row is kept; each matching city fans out, and a weather row with no
match gets NaN city columns. -/
def leftMergeWeatherCities (weather : List WeatherRow) (cities : List CityRow) :
    List MergedWeatherRow :=
  weather.flatMap (fun w =>
    let ms := cities.filter (cityMatchesWeather w)
    if ms.isEmpty then [mergedRow w none none]
    else ms.map (fun c => mergedRow w (some c.id) (some c.name)))

/-- The `merged_weather` table computed from the original `cities` and
`weather` inputs (after their in-place name normalization at lines 97–98). -/
def mergedWeatherOf (cities : List CityRow) (weather : List WeatherRow) :
    List MergedWeatherRow :=
  leftMergeWeatherCities (weather.map normalizeWeatherRow)
    (cities.map normalizeCityRow)

/-- The in-place column assignments on `shipments_df` at lines 108–110:
parse the timestamp (identity on an already-datetime column), add
`hourly_timestamp`, and add the normalized `city` key column. -/
def augmentShipment (s : ShipmentRow) : ShipmentRow :=
  { s with hourly_timestamp := some (floorHour s.shipment_start_timestamp),
           city := some (stripLower s.start_location) }

/-- The key comparison of the inner merge at lines 115–120:
`on=["city", "hourly_timestamp"]`. -/
def shipmentMatchesMerged (s : ShipmentRow) (m : MergedWeatherRow) : Bool :=
  s.city == some m.city && s.hourly_timestamp == some m.hourly_timestamp

/-- The projection and rename at lines 126–140: `id_x ↦ shipment_id`,
`id_y ↦ city_id`, `shipment_start_timestamp ↦ timestamp`,
`consumed_fuel ↦ fuel_consumed_liters`, weather variables carried through. -/
def projectFact (s : ShipmentRow) (m : MergedWeatherRow) : FactRecord :=
  { shipment_id := s.id, city_id := m.city_id,
    timestamp := s.shipment_start_timestamp,
    fuel_consumed_liters := s.consumed_fuel,
    temperature_2m := m.temperature_2m, windspeed_10m := m.windspeed_10m,
    precipitation := m.precipitation, weathercode := m.weathercode }

/-- The fact rows contributed by one (augmented) shipment row in the inner
merge: one projected row per matching `merged_weather` row, in table order. -/
def shipFactRows (s : ShipmentRow) (mw : List MergedWeatherRow) :
    List FactRecord :=
  (mw.filter (shipmentMatchesMerged s)).map (projectFact s)

/-- Return value of `preprocess_and_join` together with the post-call contents
of its three argument dataframes (the function mutates them in place). -/
structure JoinResult where
  fact : List FactRecord
  shipmentsAfter : List ShipmentRow
  citiesAfter : List CityRow
  weatherAfter : List WeatherRow
  deriving DecidableEq, Repr

/-- `preprocess_and_join` (build_fact_shipments_weather.py lines 89–143).
The empty-input guard at lines 93–95 returns before any mutation; otherwise
the city and weather name columns are normalized in place, the left merge
builds `merged_weather`, the shipment key columns are added in place, and the
inner merge plus projection produce the fact table (empty join results return
an empty frame at lines 122–124). -/
def preprocess_and_join (shipments : List ShipmentRow) (cities : List CityRow)
    (weather : List WeatherRow) : JoinResult :=
  if shipments.isEmpty || cities.isEmpty || weather.isEmpty then
    { fact := [], shipmentsAfter := shipments, citiesAfter := cities,
      weatherAfter := weather }
  else
    let cities2 := cities.map normalizeCityRow
    let weather2 := weather.map normalizeWeatherRow
    let merged_weather := leftMergeWeatherCities weather2 cities2
    let shipments2 := shipments.map augmentShipment
    let fact_df := shipments2.flatMap (fun s => shipFactRows s merged_weather)
    if fact_df.isEmpty then
      { fact := [], shipmentsAfter := shipments2, citiesAfter := cities2,
        weatherAfter := weather2 }
    else
      { fact := fact_df, shipmentsAfter := shipments2, citiesAfter := cities2,
        weatherAfter := weather2 }

/-- An attempt outcome of the kinds the retry loop treats as failed before
record construction even starts: network error, HTTP error, decode error, or
an empty (or absent) hourly time series. -/
def failsAttempt : HttpOutcome → Bool
  | .ok hourly => (hourly.getD ⟨[], []⟩).time.isEmpty
  | _ => true

/-! ## Concrete rows for the verification scenarios

Datetimes are minutes since 2022-07-01T00:00 (so `08:00 ↦ 480`,
`08:15 ↦ 495`); float columns are fixed-point hundredths
(`52.52 ↦ 5252`, `13.40 ↦ 1340`, `21.3 ↦ 2130`, `5.1 ↦ 510`, `12.5 ↦ 1250`);
`weathercode` is an integer code carried as is. -/

/-- The spec's end-to-end shipment `{id=1, start_location="Berlin",
shipment_start_timestamp=2022-07-01T08:15:00, consumed_fuel=12.5}`. -/
def berlinShipment : ShipmentRow :=
  { id := 1, start_location := "Berlin", shipment_start_timestamp := 495,
    consumed_fuel := 1250, hourly_timestamp := none, city := none }

/-- The spec's end-to-end city `{id=9, name="Berlin", lat=52.52, lon=13.40}`. -/
def berlinCity : CityRow :=
  { id := 9, name := "Berlin", latitude := 5252, longitude := 1340 }

/-- The spec's end-to-end weather row `{city="berlin", lat=52.52, lon=13.40,
timestamp=2022-07-01T08:00:00, temperature_2m=21.3, windspeed_10m=5.1,
precipitation=0.0, weathercode=1}`. -/
def berlinWeather : WeatherRow :=
  { city := "berlin", latitude := 5252, longitude := 1340, timestamp := 480,
    temperature_2m := some 2130, windspeed_10m := some 510,
    precipitation := some 0, weathercode := some 1 }

/-- The spec's expected end-to-end output `{shipment_id=1, city_id=9,
timestamp=2022-07-01T08:15:00, fuel_consumed_liters=12.5, ...}`. -/
def berlinFact : FactRecord :=
  { shipment_id := 1, city_id := some 9, timestamp := 495,
    fuel_consumed_liters := 1250, temperature_2m := some 2130,
    windspeed_10m := some 510, precipitation := some 0, weathercode := some 1 }

/-- A weather row named `"berlin"` whose coordinates match no catalog city
(the left merge leaves its city columns NaN). -/
def offGridWeather : WeatherRow :=
  { city := "berlin", latitude := 100, longitude := 200, timestamp := 480,
    temperature_2m := some 2130, windspeed_10m := some 510,
    precipitation := some 0, weathercode := some 1 }

/-- A `city_info` dict for the fetch scenarios. -/
def berlinInfo : CityInfo := { city := "Berlin", latitude := 5252, longitude := 1340 }

/-- Catalog city `"Miami"` for the key-normalization scenario. -/
def miamiCity : CityRow := { id := 3, name := "Miami", latitude := 100, longitude := 200 }

/-- Weather row named `"  miami "` (untrimmed, lower case). -/
def miamiWeather : WeatherRow :=
  { city := "  miami ", latitude := 100, longitude := 200, timestamp := 480,
    temperature_2m := some 3000, windspeed_10m := none, precipitation := none,
    weathercode := none }

/-- Shipment starting at `" MiAmI"` (untrimmed, mixed case) at 08:17. -/
def miamiShipment : ShipmentRow :=
  { id := 7, start_location := " MiAmI", shipment_start_timestamp := 497,
    consumed_fuel := 800, hourly_timestamp := none, city := none }

/-- A shipment whose start location matches no weather row. -/
def strandedShipment : ShipmentRow :=
  { id := 2, start_location := "Hill Valley", shipment_start_timestamp := 495,
    consumed_fuel := 900, hourly_timestamp := none, city := none }

/-- A catalog row missing only its latitude. -/
def halfCoordRow : CatalogCityRow :=
  { name := "Hill Valley", latitude := none, longitude := some 100 }

/-- A decoded response whose time series has two entries but whose hourly
object carries none of the requested variable arrays. -/
def twoHourNoVars : HourlyObj :=
  { time := ["2022-07-01T00:00", "2022-07-01T01:00"], vars := [] }

/-- The same upstream omission with a one-entry time series. -/
def oneHourNoVars : HourlyObj :=
  { time := ["2022-07-01T00:00"], vars := [] }

/-! ## Helper lemmas -/

/-- The guard at lines 93–95: with any input table empty, the function
returns an empty frame before touching any of its arguments. -/
theorem preprocess_and_join_of_empty (s : List ShipmentRow) (c : List CityRow)
    (w : List WeatherRow) (h : s = [] ∨ c = [] ∨ w = []) :
    preprocess_and_join s c w =
      { fact := [], shipmentsAfter := s, citiesAfter := c, weatherAfter := w } := by
  rcases h with h | h | h <;> subst h <;> simp [preprocess_and_join]

/-- With all three inputs non-empty, the join runs: the fact table is the
inner-merge fan-out over the augmented shipments, and all three argument
tables come back mutated. -/
theorem preprocess_and_join_of_nonempty (s : List ShipmentRow) (c : List CityRow)
    (w : List WeatherRow) (hs : s ≠ []) (hc : c ≠ []) (hw : w ≠ []) :
    preprocess_and_join s c w =
      { fact := s.flatMap
          (fun t => shipFactRows (augmentShipment t) (mergedWeatherOf c w)),
        shipmentsAfter := s.map augmentShipment,
        citiesAfter := c.map normalizeCityRow,
        weatherAfter := w.map normalizeWeatherRow } := by
  have hguard : (s.isEmpty || c.isEmpty || w.isEmpty) = false := by
    simp [List.isEmpty_iff, hs, hc, hw]
  unfold preprocess_and_join
  rw [hguard]
  simp only [Bool.false_eq_true, if_false]
  rw [List.flatMap_map]
  unfold mergedWeatherOf
  split
  · next hemp =>
    rw [List.isEmpty_iff] at hemp
    rw [hemp]
  · rfl

/-- Every `merged_weather` row owes its `id` column either to the NaN fill of
an unmatched left-merge row or to some city row of the right table. -/
theorem leftMerge_city_id (weather : List WeatherRow) (cities : List CityRow)
    (m : MergedWeatherRow) (hm : m ∈ leftMergeWeatherCities weather cities) :
    m.city_id = none ∨ ∃ cc ∈ cities, m.city_id = some cc.id := by
  unfold leftMergeWeatherCities at hm
  rw [List.mem_flatMap] at hm
  obtain ⟨w, _, hmem⟩ := hm
  dsimp only at hmem
  by_cases hms : cities.filter (cityMatchesWeather w) = []
  · rw [hms] at hmem
    simp only [List.isEmpty_nil, if_true, List.mem_singleton] at hmem
    subst hmem
    exact Or.inl rfl
  · rw [if_neg (by simpa [List.isEmpty_iff] using hms)] at hmem
    rw [List.mem_map] at hmem
    obtain ⟨cc, hcc, heq⟩ := hmem
    rw [List.mem_filter] at hcc
    exact Or.inr ⟨cc, hcc.1, by subst heq; rfl⟩

/-- When every attempt of the retry loop fails, the loop runs through all of
its remaining iterations, invoking the endpoint once per iteration, and
falls through to the empty result. -/
theorem fetchLoop_all_fail (c : CityInfo) (endpoint : Nat → HttpOutcome)
    (h : ∀ n, attemptFetch c (endpoint n) = none) :
    ∀ n calls, fetchLoop c endpoint n calls = ([], calls + n) := by
  intro n
  induction n with
  | zero => intro calls; rfl
  | succ k ih =>
    intro calls
    simp only [fetchLoop, h calls]
    rw [ih (calls + 1)]
    have : calls + 1 + k = calls + (k + 1) := by omega
    rw [this]

/-- A network, HTTP, decode or empty-series outcome makes the attempt raise. -/
theorem attemptFetch_of_fails (c : CityInfo) (out : HttpOutcome)
    (h : failsAttempt out = true) : attemptFetch c out = none := by
  cases out with
  | netError => rfl
  | httpError => rfl
  | decodeError => rfl
  | ok hourly =>
    dsimp only [failsAttempt] at h
    dsimp only [attemptFetch]
    rw [if_pos h]

/-! ## Claims -/

/-- C1: on the spec's end-to-end single-row inputs, `preprocess_and_join`
returns exactly one FactRecord, with the shipment's original sub-hour
timestamp (08:15, not the hour-floored 08:00 matching key), the catalog city
id, the shipment's fuel, and the weather row's four variables. -/
theorem claim_C1_end_to_end_scenario :
    (preprocess_and_join [berlinShipment] [berlinCity] [berlinWeather]).fact
        = [berlinFact] ∧
    berlinFact.timestamp = berlinShipment.shipment_start_timestamp ∧
    berlinFact.timestamp ≠ floorHour berlinShipment.shipment_start_timestamp := by
  refine ⟨by decide, rfl, by decide⟩

/-- C2: if any of the three input tables is empty, the join returns an empty
table and performs no computation on its inputs — they come back exactly as
they went in. -/
theorem claim_C2_empty_input_short_circuit (s : List ShipmentRow)
    (c : List CityRow) (w : List WeatherRow) (h : s = [] ∨ c = [] ∨ w = []) :
    preprocess_and_join s c w =
      { fact := [], shipmentsAfter := s, citiesAfter := c, weatherAfter := w } :=
  preprocess_and_join_of_empty s c w h

/-- Witness for C2 at a concrete input: cities empty, the other two tables
non-empty. -/
theorem claim_C2_empty_input_short_circuit_witness :
    (([berlinShipment] : List ShipmentRow) = [] ∨ ([] : List CityRow) = [] ∨
        ([berlinWeather] : List WeatherRow) = []) ∧
    preprocess_and_join [berlinShipment] [] [berlinWeather] =
      { fact := [], shipmentsAfter := [berlinShipment], citiesAfter := [],
        weatherAfter := [berlinWeather] } :=
  ⟨Or.inr (Or.inl rfl),
    claim_C2_empty_input_short_circuit _ _ _ (Or.inr (Or.inl rfl))⟩

/-- C3: if every attempt fails (network error, HTTP error, decode error, or
empty time series), `fetch_weather_for_city` performs exactly `retries`
endpoint invocations and returns the empty list.  The embedding's return type
is total — matching the source, which catches every exception inside the
loop — so no exception reaches the caller. -/
theorem claim_C3_retry_exhaustion (c : CityInfo) (endpoint : Nat → HttpOutcome)
    (retries : Nat) (h : ∀ n, failsAttempt (endpoint n) = true) :
    fetch_weather_for_city c endpoint retries = ([], retries) := by
  unfold fetch_weather_for_city
  rw [fetchLoop_all_fail c endpoint
    (fun n => attemptFetch_of_fails c (endpoint n) (h n)) retries 0]
  rw [Nat.zero_add]

/-- Witness for C3: an endpoint that always times out, with the default
`retries=3`. -/
theorem claim_C3_retry_exhaustion_witness :
    (∀ n : Nat, failsAttempt ((fun _ => HttpOutcome.netError) n) = true) ∧
    fetch_weather_for_city berlinInfo (fun _ => HttpOutcome.netError) 3 = ([], 3) :=
  ⟨fun _ => rfl, claim_C3_retry_exhaustion berlinInfo _ 3 (fun _ => rfl)⟩

/-- C5: one and the same normalization — trim, then lower-case
(`stripLower`) — is applied to the catalog name column (line 97), the
weather location column (line 98) and the shipment `start_location`
(line 110) before the merges compare them; consequently catalog `"Miami"`,
weather `"  miami "` and shipment `" MiAmI"` all coincide as join keys and
the three-way join succeeds on them. -/
theorem claim_C5_key_normalization :
    (∀ c : CityRow, (normalizeCityRow c).name = stripLower c.name) ∧
    (∀ w : WeatherRow, (normalizeWeatherRow w).city = stripLower w.city) ∧
    (∀ s : ShipmentRow, (augmentShipment s).city = some (stripLower s.start_location)) ∧
    stripLower ("Miami") = stripLower ("  miami ") ∧
    (preprocess_and_join [miamiShipment] [miamiCity] [miamiWeather]).fact =
      [{ shipment_id := 7, city_id := some 3, timestamp := 497,
         fuel_consumed_liters := 800, temperature_2m := some 3000,
         windspeed_10m := none, precipitation := none, weathercode := none }] :=
  ⟨fun _ => rfl, fun _ => rfl, fun _ => rfl, by decide, by decide⟩

/-- C4: the claim fails on the code.  With a two-entry time series and the
variable arrays omitted upstream, `hourly_data.get(param, [None])[i]` indexes
the one-element default list, so `i = 1` raises `IndexError` and the whole
attempt is treated as a retryable failure (exhausting retries yields `[]`)
instead of succeeding with null values for every timestamp.  The null default
only ever works for index 0, as the third conjunct shows. -/
theorem claim_C4_missing_variable_default :
    attemptFetch berlinInfo (.ok (some twoHourNoVars)) = none ∧
    fetch_weather_for_city berlinInfo (fun _ => .ok (some twoHourNoVars)) 3
      = ([], 3) ∧
    attemptFetch berlinInfo (.ok (some oneHourNoVars)) =
      some [{ city := "Berlin", latitude := 5252, longitude := 1340,
              timestamp := "2022-07-01T00:00",
              vars := [("temperature_2m", none), ("windspeed_10m", none),
                       ("precipitation", none), ("weathercode", none)] }] :=
  ⟨by decide, by decide, by decide⟩

/-- C6: a shipment whose (normalized location, hour-floored timestamp) key
matches no row of the city-enriched weather table contributes zero fact rows,
and dropping it from the shipment table leaves every other shipment's output
rows unchanged. -/
theorem claim_C6_inner_join_exclusion (pre post : List ShipmentRow)
    (s : ShipmentRow) (c : List CityRow) (w : List WeatherRow)
    (h : ∀ m ∈ mergedWeatherOf c w,
      shipmentMatchesMerged (augmentShipment s) m = false) :
    shipFactRows (augmentShipment s) (mergedWeatherOf c w) = [] ∧
    (preprocess_and_join (pre ++ s :: post) c w).fact =
      (preprocess_and_join (pre ++ post) c w).fact := by
  have hrows : shipFactRows (augmentShipment s) (mergedWeatherOf c w) = [] := by
    unfold shipFactRows
    rw [List.filter_eq_nil_iff.mpr ?hh]
    · rfl
    case hh => intro m hm; simp [h m hm]
  refine ⟨hrows, ?_⟩
  by_cases hc : c = []
  · rw [preprocess_and_join_of_empty _ _ _ (Or.inr (Or.inl hc)),
        preprocess_and_join_of_empty _ _ _ (Or.inr (Or.inl hc))]
  by_cases hw : w = []
  · rw [preprocess_and_join_of_empty _ _ _ (Or.inr (Or.inr hw)),
        preprocess_and_join_of_empty _ _ _ (Or.inr (Or.inr hw))]
  by_cases hpp : pre ++ post = []
  · rw [List.append_eq_nil] at hpp
    obtain ⟨h1, h2⟩ := hpp
    subst h1; subst h2
    simp only [List.nil_append]
    rw [preprocess_and_join_of_empty _ _ _ (Or.inl rfl),
        preprocess_and_join_of_nonempty _ _ _ (by simp) hc hw]
    simpa using hrows
  · rw [preprocess_and_join_of_nonempty _ _ _ (by simp) hc hw,
        preprocess_and_join_of_nonempty _ _ _ hpp hc hw]
    dsimp only
    rw [List.flatMap_append, List.flatMap_append, List.flatMap_cons, hrows]
    simp

/-- Witness for C6: a shipment starting in Hill Valley, for which no weather
row exists, next to a Berlin shipment whose row is unaffected. -/
theorem claim_C6_inner_join_exclusion_witness :
    (∀ m ∈ mergedWeatherOf [berlinCity] [berlinWeather],
        shipmentMatchesMerged (augmentShipment strandedShipment) m = false) ∧
    (shipFactRows (augmentShipment strandedShipment)
        (mergedWeatherOf [berlinCity] [berlinWeather]) = [] ∧
      (preprocess_and_join ([] ++ strandedShipment :: [berlinShipment])
          [berlinCity] [berlinWeather]).fact =
        (preprocess_and_join ([] ++ [berlinShipment])
          [berlinCity] [berlinWeather]).fact) :=
  ⟨by decide,
    claim_C6_inner_join_exclusion [] [berlinShipment] strandedShipment
      [berlinCity] [berlinWeather] (by decide)⟩

/-- C7: a shipment matched by `k ≥ 2` merged-weather rows with its key fans
out into exactly `k` fact rows, in place, with no deduplication. -/
theorem claim_C7_duplicate_fanout (pre post : List ShipmentRow)
    (s : ShipmentRow) (c : List CityRow) (w : List WeatherRow) (k : Nat)
    (hc : c ≠ []) (hw : w ≠ [])
    (hk : ((mergedWeatherOf c w).filter
        (shipmentMatchesMerged (augmentShipment s))).length = k)
    (_h2 : 2 ≤ k) :
    (preprocess_and_join (pre ++ s :: post) c w).fact =
      pre.flatMap (fun t => shipFactRows (augmentShipment t) (mergedWeatherOf c w))
        ++ shipFactRows (augmentShipment s) (mergedWeatherOf c w)
        ++ post.flatMap (fun t => shipFactRows (augmentShipment t) (mergedWeatherOf c w)) ∧
    (shipFactRows (augmentShipment s) (mergedWeatherOf c w)).length = k := by
  constructor
  · rw [preprocess_and_join_of_nonempty _ _ _ (by simp) hc hw]
    dsimp only
    rw [List.flatMap_append, List.flatMap_cons, List.append_assoc]
  · unfold shipFactRows
    rw [List.length_map]
    exact hk

/-- Witness for C7: the Berlin weather row duplicated (`k = 2`). -/
theorem claim_C7_duplicate_fanout_witness :
    (([berlinCity] : List CityRow) ≠ [] ∧
     ([berlinWeather, berlinWeather] : List WeatherRow) ≠ [] ∧
     ((mergedWeatherOf [berlinCity] [berlinWeather, berlinWeather]).filter
        (shipmentMatchesMerged (augmentShipment berlinShipment))).length = 2 ∧
     2 ≤ 2) ∧
    ((preprocess_and_join ([] ++ berlinShipment :: []) [berlinCity]
        [berlinWeather, berlinWeather]).fact =
      ([] : List ShipmentRow).flatMap (fun t => shipFactRows (augmentShipment t)
          (mergedWeatherOf [berlinCity] [berlinWeather, berlinWeather]))
        ++ shipFactRows (augmentShipment berlinShipment)
            (mergedWeatherOf [berlinCity] [berlinWeather, berlinWeather])
        ++ ([] : List ShipmentRow).flatMap (fun t => shipFactRows (augmentShipment t)
            (mergedWeatherOf [berlinCity] [berlinWeather, berlinWeather])) ∧
      (shipFactRows (augmentShipment berlinShipment)
        (mergedWeatherOf [berlinCity] [berlinWeather, berlinWeather])).length = 2) :=
  ⟨⟨by decide, by decide, by decide, by decide⟩,
    claim_C7_duplicate_fanout [] [] berlinShipment [berlinCity]
      [berlinWeather, berlinWeather] 2 (by decide) (by decide) (by decide)
      (by decide)⟩

/-- C8 counterexample: a weather row that matches the shipment's
(city, hour) key but no catalog city.  The inner merge keys only on
(city, hourly_timestamp), so the fact row is emitted with a null `city_id`,
refuting the claim that every output row's `city_id` is a non-null catalog
id. -/
theorem claim_C8_counterexample :
    (preprocess_and_join [berlinShipment] [berlinCity] [offGridWeather]).fact =
      [{ shipment_id := 1, city_id := none, timestamp := 495,
         fuel_consumed_liters := 1250, temperature_2m := some 2130,
         windspeed_10m := some 510, precipitation := some 0,
         weathercode := some 1 }] ∧
    ((preprocess_and_join [berlinShipment] [berlinCity] [offGridWeather]).fact.all
      (fun r => r.city_id.isSome)) = false :=
  ⟨by decide, by decide⟩

/-- C8 amended: every output row's `city_id` is either null (its weather row
matched no catalog city in the left merge) or the verbatim id of some catalog
city row. -/
theorem claim_C8_city_id_amended (s : List ShipmentRow) (c : List CityRow)
    (w : List WeatherRow) (r : FactRecord)
    (hr : r ∈ (preprocess_and_join s c w).fact) :
    r.city_id = none ∨ ∃ cr ∈ c, r.city_id = some cr.id := by
  by_cases hs : s = []
  · rw [preprocess_and_join_of_empty s c w (Or.inl hs)] at hr
    simp at hr
  by_cases hc : c = []
  · rw [preprocess_and_join_of_empty s c w (Or.inr (Or.inl hc))] at hr
    simp at hr
  by_cases hw : w = []
  · rw [preprocess_and_join_of_empty s c w (Or.inr (Or.inr hw))] at hr
    simp at hr
  rw [preprocess_and_join_of_nonempty s c w hs hc hw] at hr
  dsimp only at hr
  rw [List.mem_flatMap] at hr
  obtain ⟨t, _, hrt⟩ := hr
  unfold shipFactRows at hrt
  rw [List.mem_map] at hrt
  obtain ⟨m, hm, hpm⟩ := hrt
  rw [List.mem_filter] at hm
  have hcid := leftMerge_city_id (w.map normalizeWeatherRow)
    (c.map normalizeCityRow) m hm.1
  rcases hcid with hnone | ⟨cc, hccmem, hid⟩
  · left
    rw [← hpm]
    exact hnone
  · right
    rw [List.mem_map] at hccmem
    obtain ⟨cr, hcr, hcrn⟩ := hccmem
    refine ⟨cr, hcr, ?_⟩
    rw [← hpm]
    show m.city_id = some cr.id
    rw [hid, ← hcrn]
    rfl

/-- Witness for C8 amended: the end-to-end row, whose `city_id` is carried
from catalog city 9. -/
theorem claim_C8_city_id_amended_witness :
    berlinFact ∈
      (preprocess_and_join [berlinShipment] [berlinCity] [berlinWeather]).fact ∧
    (berlinFact.city_id = none ∨
      ∃ cr ∈ [berlinCity], berlinFact.city_id = some cr.id) :=
  ⟨by decide,
    claim_C8_city_id_amended [berlinShipment] [berlinCity] [berlinWeather]
      berlinFact (by decide)⟩

/-- C9 counterexample: on the end-to-end inputs the call hands back a cities
table with the name column lower-cased and a shipments table with added key
columns — the inputs are not read-only. -/
theorem claim_C9_counterexample :
    ¬ ((preprocess_and_join [berlinShipment] [berlinCity] [berlinWeather]).shipmentsAfter
          = [berlinShipment] ∧
       (preprocess_and_join [berlinShipment] [berlinCity] [berlinWeather]).citiesAfter
          = [berlinCity]) := by
  decide

/-- C9 amended: whenever all three inputs are non-empty, the call mutates its
shipment and city tables in place: every city name is trimmed and
lower-cased, and every shipment row gains the derived `hourly_timestamp` and
normalized `city` key columns. -/
theorem claim_C9_mutation_amended (s : List ShipmentRow) (c : List CityRow)
    (w : List WeatherRow) (hs : s ≠ []) (hc : c ≠ []) (hw : w ≠ []) :
    (preprocess_and_join s c w).shipmentsAfter = s.map augmentShipment ∧
    (preprocess_and_join s c w).citiesAfter = c.map normalizeCityRow := by
  rw [preprocess_and_join_of_nonempty s c w hs hc hw]
  exact ⟨rfl, rfl⟩

/-- Witness for C9 amended: the end-to-end inputs. -/
theorem claim_C9_mutation_amended_witness :
    (([berlinShipment] : List ShipmentRow) ≠ [] ∧
     ([berlinCity] : List CityRow) ≠ [] ∧
     ([berlinWeather] : List WeatherRow) ≠ []) ∧
    ((preprocess_and_join [berlinShipment] [berlinCity] [berlinWeather]).shipmentsAfter
        = [berlinShipment].map augmentShipment ∧
     (preprocess_and_join [berlinShipment] [berlinCity] [berlinWeather]).citiesAfter
        = [berlinCity].map normalizeCityRow) :=
  ⟨⟨by decide, by decide, by decide⟩,
    claim_C9_mutation_amended [berlinShipment] [berlinCity] [berlinWeather]
      (by decide) (by decide) (by decide)⟩

/-- C10 counterexample: a catalog row missing only its latitude does not lack
both coordinates, yet `fetch_cities_from_db` excludes it — the query keeps a
row only when both coordinates are non-null. -/
theorem claim_C10_counterexample :
    fetch_cities_from_db [halfCoordRow] = [] ∧
    ¬ (halfCoordRow.latitude = none ∧ halfCoordRow.longitude = none) :=
  ⟨rfl, by decide⟩

/-- C10 amended: the reader filters rowwise, and it excludes a catalog row if
and only if the row lacks at least one of latitude and longitude; only rows
with both coordinates present are retained. -/
theorem claim_C10_filter_amended :
    (∀ rows : List CatalogCityRow,
      fetch_cities_from_db rows =
        rows.flatMap (fun r => fetch_cities_from_db [r])) ∧
    (∀ r : CatalogCityRow,
      fetch_cities_from_db [r] = [] ↔
        (r.latitude = none ∨ r.longitude = none)) := by
  constructor
  · intro rows
    induction rows with
    | nil => rfl
    | cons r rest ih =>
      obtain ⟨name, la, lo⟩ := r
      rw [List.flatMap_cons, ← ih]
      cases la <;> cases lo <;>
        simp [fetch_cities_from_db, List.filterMap_cons]
  · intro r
    obtain ⟨name, la, lo⟩ := r
    cases la <;> cases lo <;> simp [fetch_cities_from_db]

end BTTFWeather
